import Mathlib

/-!
Verification development for the threshold-based alerting and polling
subsystem of the Vehicle_Tracking_System repository.  The embedded code is
the notification pipeline of src/app/(tabs)/Notifications.tsx: the fetch
cycle (fetchLatestSensorData), the threshold evaluation and cooldown gate
(checkAndSendNotifications), and the notification emitter
(scheduleLocalNotification) together with the in-app notification history.

JavaScript machine integers do not arise here; timestamps (Date.now(),
millisecond counts) are modelled as integers, sensor readings as rationals.
JavaScript string-to-number coercion via parseFloat is modelled explicitly,
including its truthiness interaction (the source guards each field with
`data.field1 && ...`), since several claims hinge on it.
-/

namespace VehicleTracking

/-- A JavaScript value as it can appear in a field of the JSON object
returned by the telemetry endpoint: absent (undefined), null, a number, or
a string.  ThingSpeak normally returns strings or null, but the source
types the payload as `any`, so all four shapes are modelled. -/
inductive JsValue where
  | undef
  | jnull
  | num (x : ℚ)
  | str (s : String)
  deriving DecidableEq, Repr

/-- JavaScript truthiness of a field value: undefined, null, the number 0
and the empty string are falsy; every other number or string is truthy.
This is the semantics of the guards `data.field1 && ...` and
`data.field2 && ...` in checkAndSendNotifications. -/
def jsTruthy : JsValue → Bool
  | JsValue.undef => false
  | JsValue.jnull => false
  | JsValue.num x => decide (x ≠ 0)
  | JsValue.str s => decide (s ≠ "")

/-- Numeric value of a digit character. -/
def digitVal (c : Char) : ℕ := c.toNat - 48

/-- Value of a digit string read in base 10. -/
def digitsToNat (l : List Char) : ℕ := l.foldl (fun a c => 10 * a + digitVal c) 0

/-- Leading-whitespace characters stripped by JavaScript parseFloat. -/
def isJsSpace (c : Char) : Bool := c == ' ' || c == '\t' || c == '\n' || c == '\r'

/-- JavaScript parseFloat on a string: strip leading whitespace, read an
optional sign, then the longest prefix of the form digits [ . digits ]
[ (e|E) sign? digits ].  Returns none when no digits are read (NaN).
Infinity literals do not occur in the telemetry payload and are not
modelled. -/
def parseFloatString (s : String) : Option ℚ :=
  let l0 := s.data.dropWhile isJsSpace
  let sign : ℚ := match l0 with | '-' :: _ => -1 | _ => 1
  let l1 := match l0 with | '-' :: r => r | '+' :: r => r | _ => l0
  let intPart := l1.takeWhile Char.isDigit
  let l2 := l1.dropWhile Char.isDigit
  let fracPart := match l2 with | '.' :: r => r.takeWhile Char.isDigit | _ => []
  let l3 := match l2 with | '.' :: r => r.dropWhile Char.isDigit | _ => l2
  if intPart.isEmpty && fracPart.isEmpty then none
  else
    let mantissa : ℚ :=
      (digitsToNat intPart : ℚ) + (digitsToNat fracPart : ℚ) / ((10 : ℚ) ^ fracPart.length)
    let scale : ℚ :=
      match l3 with
      | 'e' :: r | 'E' :: r =>
        let r2 := match r with | '-' :: rr => rr | '+' :: rr => rr | _ => r
        let eDigits := r2.takeWhile Char.isDigit
        if eDigits.isEmpty then 1
        else
          match r with
          | '-' :: _ => 1 / ((10 : ℚ) ^ digitsToNat eDigits)
          | _ => (10 : ℚ) ^ digitsToNat eDigits
      | _ => 1
    some (sign * mantissa * scale)

/-- JavaScript parseFloat applied to a field value: numbers round-trip to
themselves, undefined and null give NaN (modelled as none), strings are
parsed by parseFloatString. -/
def jsParseFloat : JsValue → Option ℚ
  | JsValue.undef => none
  | JsValue.jnull => none
  | JsValue.num x => some x
  | JsValue.str s => parseFloatString s

/-- The latest-entry JSON object consumed by checkAndSendNotifications:
the two sensor fields and the creation timestamp. -/
structure SensorData where
  field1 : JsValue
  field2 : JsValue
  created_at : JsValue
  deriving DecidableEq, Repr

/-- One entry of the in-app notification history (interface
NotificationData in the source); the timestamp is the Date.now() instant
at which the record was created, in milliseconds. -/
structure NotificationData where
  title : String
  body : String
  timestamp : ℤ
  deriving DecidableEq, Repr

/-- The mutable state of the NotificationService component that the
pipeline touches: the two per-channel last-alert instants
(lastField1Alert / lastField2Alert, useRef cells initialised to 0) and the
notification history list (useState, initialised empty, newest first). -/
structure NotifState where
  lastField1Alert : ℤ
  lastField2Alert : ℤ
  notifications : List NotificationData
  deriving DecidableEq, Repr

/-- Component-mount state: both last-alert refs hold 0 and the history is
empty. -/
def initialState : NotifState := { lastField1Alert := 0, lastField2Alert := 0, notifications := [] }

/-- Outcome of the two platform notification dispatches a single cycle can
attempt (Notifications.scheduleNotificationAsync): true when the promise
resolves, false when it rejects. -/
structure DispatchOutcomes where
  field1Ok : Bool
  field2Ok : Bool
  deriving DecidableEq, Repr

/-- ALERT_COOLDOWN from the source: minimum time between alerts for one
channel, 5 minutes in milliseconds. -/
def ALERT_COOLDOWN : ℤ := 5 * 60 * 1000

/-- The field1 (gas) trigger condition of checkAndSendNotifications:
`data.field1 && parseFloat(data.field1) > field1Threshold`.  The value
must be truthy and parse to a number strictly above the threshold (a NaN
comparison is false). -/
def field1Cond (th1 : ℚ) (f : JsValue) : Bool :=
  jsTruthy f &&
    match jsParseFloat f with
    | some x => decide (x > th1)
    | none => false

/-- The field2 (vibration) trigger condition of checkAndSendNotifications:
`data.field2 && parseFloat(data.field2) >= field2Threshold`.  The value
must be truthy and parse to a number at or above the threshold. -/
def field2Cond (th2 : ℚ) (f : JsValue) : Bool :=
  jsTruthy f &&
    match jsParseFloat f with
    | some x => decide (x ≥ th2)
    | none => false

/-- Exact rational rendering of a value used in a notification body.  The
source renders parseFloat(...).toFixed(2); the decimal formatting is
abstracted to a num/den rendering since no property depends on the text. -/
def qText (x : ℚ) : String := toString x.num ++ "/" ++ toString x.den

/-- Rendering of a possibly-NaN parsed value. -/
def valText : Option ℚ → String
  | some x => qText x
  | none => "NaN"

/-- Body text of a gas (field1) alert. -/
def gasAlertBody (f : JsValue) (th1 : ℚ) : String :=
  "Gas sensor reading critical: " ++ valText (jsParseFloat f) ++ " (Threshold: " ++ qText th1 ++ ")"

/-- Body text of a vibration (field2) alert. -/
def vibAlertBody (f : JsValue) (th2 : ℚ) : String :=
  "Abnormal vibration detected: " ++ valText (jsParseFloat f) ++ " (Threshold: " ++ qText th2 ++ ")"

/-- scheduleLocalNotification from the source.  It wraps the platform
dispatch and the history append in a single try/catch:

  try { await Notifications.scheduleNotificationAsync(...);
        setNotifications(prev => [newNotification, ...prev]); }
  catch (error) { console.error(...); }

so when the dispatch rejects (dispatchOk = false) control jumps to the
catch, the error is logged and swallowed, and the append — which sits
after the await inside the try — never executes.  When the dispatch
resolves, a NotificationData record carrying the current instant is
prepended to the history. -/
def scheduleLocalNotification (dispatchOk : Bool) (title body : String) (now : ℤ)
    (s : NotifState) : NotifState :=
  if dispatchOk then
    { s with notifications := { title := title, body := body, timestamp := now } :: s.notifications }
  else s

/-- checkAndSendNotifications from the source.  Reads now = Date.now()
once, then for each channel in order (field1 then field2): if the trigger
condition holds and the cooldown has elapsed (strictly), records the
channel's last-alert instant as now and emits one notification through
scheduleLocalNotification. -/
def checkAndSendNotifications (th1 th2 : ℚ) (data : SensorData) (now : ℤ)
    (disp : DispatchOutcomes) (s : NotifState) : NotifState :=
  let s1 :=
    if field1Cond th1 data.field1 then
      if now - s.lastField1Alert > ALERT_COOLDOWN then
        scheduleLocalNotification disp.field1Ok "Vehicle Health Alert! 🚨"
          (gasAlertBody data.field1 th1) now { s with lastField1Alert := now }
      else s
    else s
  if field2Cond th2 data.field2 then
    if now - s1.lastField2Alert > ALERT_COOLDOWN then
      scheduleLocalNotification disp.field2Ok "Possible Accident Detected! 🚨"
        (vibAlertBody data.field2 th2) now { s1 with lastField2Alert := now }
    else s1
  else s1

/-- Outcome of the single axios GET a cycle performs: the promise rejected
(network or HTTP error), resolved with a falsy body (the source's
`if (!data) ... return` branch), or resolved with a JSON object. -/
inductive FetchOutcome where
  | failure
  | noData
  | success (d : SensorData)
  deriving DecidableEq, Repr

/-- Everything one pipeline cycle depends on besides the component state:
the fetch outcome, the Date.now() instant at which
checkAndSendNotifications runs, and the dispatch outcomes. -/
structure CycleInput where
  out : FetchOutcome
  now : ℤ
  disp : DispatchOutcomes
  deriving DecidableEq, Repr

/-- Body of the try block of fetchLatestSensorData: await the GET (a
rejection raises), return early when the body is falsy, otherwise run
checkAndSendNotifications on it. -/
def fetchBody (th1 th2 : ℚ) (c : CycleInput) (s : NotifState) : Except String NotifState :=
  match c.out with
  | FetchOutcome.failure => Except.error "Error fetching sensor data"
  | FetchOutcome.noData => Except.ok s
  | FetchOutcome.success d => Except.ok (checkAndSendNotifications th1 th2 d c.now c.disp s)

/-- fetchLatestSensorData from the source: the whole cycle body sits in a
try/catch whose catch logs the error and returns, so a raised error leaves
the state untouched and never escapes the cycle. -/
def fetchLatestSensorData (th1 th2 : ℚ) (c : CycleInput) (s : NotifState) : NotifState :=
  match fetchBody th1 th2 c s with
  | Except.ok s2 => s2
  | Except.error _ => s

/-- The polling effect: fetchLatestSensorData runs once immediately and
then on every setInterval tick; a sequence of cycles is the fold of the
single-cycle function over the cycle inputs in order. -/
def runCycles (th1 th2 : ℚ) (cs : List CycleInput) (s : NotifState) : NotifState :=
  cs.foldl (fun st c => fetchLatestSensorData th1 th2 c st) s

/-- A sequence of direct notification emissions (title, body, instant),
each with a successful platform dispatch, folded over
scheduleLocalNotification.  Used to examine the history bound. -/
def emitAll (entries : List (String × String × ℤ)) (s : NotifState) : NotifState :=
  entries.foldl (fun st e => scheduleLocalNotification true e.1 e.2.1 e.2.2 st) s

/-- The NotificationData record an entry of emitAll produces. -/
def entryRecord (e : String × String × ℤ) : NotificationData :=
  { title := e.1, body := e.2.1, timestamp := e.2.2 }

/-- Timeline of the polling effect.  The effect calls fetchLatestSensorData
immediately and then unconditionally on every setInterval tick, so cycle i
starts at instant i * interval; a cycle with fetch latency L is in flight
during [start, start + L).  activeCycles counts the cycles in flight at
instant t.  The tick handler has no in-flight guard: nothing in the source
skips a tick while a previous fetch is pending. -/
def activeCycles (interval latency t : ℕ) : ℕ :=
  ((Finset.range (t / interval + 1)).filter
    (fun i => i * interval ≤ t ∧ t < i * interval + latency)).card

/-- The URL built by fetchLatestSensorData.  The source interpolates the
string literals '2899206' and 'K5H4IGTGX5E20NMW' into the template (and
tests the literal key for truthiness), so the channelId and readApiKey
props — received by the component but unused here — do not appear. -/
def fetchUrl (channelId readApiKey : String) : String :=
  "https://api.thingspeak.com/channels/" ++ "2899206" ++ "/feeds/last.json"
    ++ (if ("K5H4IGTGX5E20NMW" : String) ≠ "" then "?api_key=" ++ "K5H4IGTGX5E20NMW" else "")

/-- Modelled from the claim's words, for comparison with fetchUrl: the
latest-entry URL built from the configured channel identifier, with
?api_key appended exactly when a key is configured. -/
def claimFetchUrl (channelId readApiKey : String) : String :=
  "https://api.thingspeak.com/channels/" ++ channelId ++ "/feeds/last.json"
    ++ (if readApiKey ≠ "" then "?api_key=" ++ readApiKey else "")

/-- Modelled from the claim's words, for comparison with the source's
trigger conditions: a channel value that is present (non-null,
non-undefined) and numerically parseable, returned as its parsed number. -/
def claimPresentValue : JsValue → Option ℚ
  | JsValue.undef => none
  | JsValue.jnull => none
  | JsValue.num x => some x
  | JsValue.str s => parseFloatString s

/-! Helper lemmas shared by the claim theorems. -/

theorem scheduleLocal_lastField1 (ok : Bool) (t b : String) (n : ℤ) (st : NotifState) :
    (scheduleLocalNotification ok t b n st).lastField1Alert = st.lastField1Alert := by
  cases ok <;> rfl

theorem scheduleLocal_lastField2 (ok : Bool) (t b : String) (n : ℤ) (st : NotifState) :
    (scheduleLocalNotification ok t b n st).lastField2Alert = st.lastField2Alert := by
  cases ok <;> rfl

theorem scheduleLocal_length (ok : Bool) (t b : String) (n : ℤ) (st : NotifState) :
    (scheduleLocalNotification ok t b n st).notifications.length
      = st.notifications.length + cond ok 1 0 := by
  cases ok <;> simp [scheduleLocalNotification]

theorem field2Cond_undef (th2 : ℚ) : field2Cond th2 JsValue.undef = false := rfl

theorem ALERT_COOLDOWN_val : ALERT_COOLDOWN = 300000 := rfl

/-- Shape of checkAndSendNotifications when the field2 value is absent:
only the field1 branch can act. -/
theorem check_field2_undef (th1 th2 : ℚ) (d : SensorData) (now : ℤ)
    (disp : DispatchOutcomes) (s : NotifState) (h2 : d.field2 = JsValue.undef) :
    checkAndSendNotifications th1 th2 d now disp s
      = if field1Cond th1 d.field1 then
          if now - s.lastField1Alert > ALERT_COOLDOWN then
            scheduleLocalNotification disp.field1Ok "Vehicle Health Alert! 🚨"
              (gasAlertBody d.field1 th1) now { s with lastField1Alert := now }
          else s
        else s := by
  have c2 : field2Cond th2 d.field2 = false := by rw [h2]; exact field2Cond_undef th2
  simp only [checkAndSendNotifications, c2, Bool.false_eq_true, if_false]

/-! Claim theorems. -/

/-- C9: a channel whose sample value is falsy (the number 0, the empty
string, null, or undefined) yields no alert candidate — the whole cycle
leaves the state untouched — even when the value is numeric and the
configured comparator would hold against the threshold (the thresholds
are universally quantified, so in particular negative ones). -/
theorem C9_falsy_value_never_alerts (th1 th2 : ℚ) (f1 f2 ca : JsValue) (now : ℤ)
    (disp : DispatchOutcomes) (s : NotifState)
    (h1 : jsTruthy f1 = false) (h2 : jsTruthy f2 = false) :
    checkAndSendNotifications th1 th2 ⟨f1, f2, ca⟩ now disp s = s := by
  have c1 : field1Cond th1 f1 = false := by simp [field1Cond, h1]
  have c2 : field2Cond th2 f2 = false := by simp [field2Cond, h2]
  simp [checkAndSendNotifications, c1, c2]

/-- C9 witness: value 0 on field1 against threshold -1 (where 0 > -1
holds) and the empty string on field2 against threshold -1 (where the
parsed value would not even be needed): no notification, no state
change. -/
theorem C9_witness :
    checkAndSendNotifications (-1) (-1) ⟨JsValue.num 0, JsValue.str "", JsValue.jnull⟩ 1000000
      ⟨true, true⟩ initialState = initialState :=
  C9_falsy_value_never_alerts (-1) (-1) (JsValue.num 0) (JsValue.str "") JsValue.jnull 1000000
    ⟨true, true⟩ initialState (by decide) (by decide)

/-- C3: for a channel with prior admission at T0 = s.lastField1Alert, a
candidate at now is admitted iff now - T0 > ALERT_COOLDOWN (strictly):
when admitted the last-fired instant becomes now and one notification is
emitted (when the dispatch succeeds); at now - T0 ≤ ALERT_COOLDOWN the
cycle leaves the state untouched; and running the same admitted cycle a
second time at the same instant changes nothing (first admitted, second
suppressed). -/
theorem C3_cooldown_strict_and_idempotent (th1 th2 : ℚ) (d : SensorData) (now : ℤ)
    (disp : DispatchOutcomes) (s : NotifState)
    (htrig : field1Cond th1 d.field1 = true) (h2 : d.field2 = JsValue.undef) :
    (now - s.lastField1Alert > ALERT_COOLDOWN →
      (checkAndSendNotifications th1 th2 d now disp s).lastField1Alert = now ∧
      (checkAndSendNotifications th1 th2 d now disp s).notifications.length
        = s.notifications.length + cond disp.field1Ok 1 0 ∧
      checkAndSendNotifications th1 th2 d now disp (checkAndSendNotifications th1 th2 d now disp s)
        = checkAndSendNotifications th1 th2 d now disp s) ∧
    (now - s.lastField1Alert ≤ ALERT_COOLDOWN →
      checkAndSendNotifications th1 th2 d now disp s = s) := by
  rw [check_field2_undef th1 th2 d now disp s h2, htrig]
  constructor
  · intro hc
    rw [if_pos rfl, if_pos hc]
    refine ⟨?_, ?_, ?_⟩
    · rw [scheduleLocal_lastField1]
    · rw [scheduleLocal_length]
    · set r := scheduleLocalNotification disp.field1Ok "Vehicle Health Alert! 🚨"
        (gasAlertBody d.field1 th1) now { s with lastField1Alert := now } with hr
      have hlast : r.lastField1Alert = now := by rw [hr, scheduleLocal_lastField1]
      rw [check_field2_undef th1 th2 d now disp r h2, htrig, if_pos rfl, if_neg]
      rw [hlast]
      rw [ALERT_COOLDOWN_val]
      omega
  · intro hc
    rw [if_pos rfl, if_neg]
    omega

/-- C3 witness: prior admission at T0 = 1000000 with cooldown 300000 ms; a
candidate at 1300001 (T0 + cooldown + 1) is admitted, updating the
last-fired instant and emitting one notification, and rerunning the
admitted cycle at the same instant changes nothing; a candidate at exactly
1300000 (T0 + cooldown) is suppressed. -/
theorem C3_witness :
    ((checkAndSendNotifications 20 1 ⟨JsValue.num 25, JsValue.undef, JsValue.undef⟩ 1300001
        ⟨true, true⟩ ⟨1000000, 0, []⟩).lastField1Alert = 1300001 ∧
      (checkAndSendNotifications 20 1 ⟨JsValue.num 25, JsValue.undef, JsValue.undef⟩ 1300001
        ⟨true, true⟩ ⟨1000000, 0, []⟩).notifications.length
        = ([] : List NotificationData).length + cond true 1 0 ∧
      checkAndSendNotifications 20 1 ⟨JsValue.num 25, JsValue.undef, JsValue.undef⟩ 1300001
        ⟨true, true⟩ (checkAndSendNotifications 20 1 ⟨JsValue.num 25, JsValue.undef, JsValue.undef⟩
          1300001 ⟨true, true⟩ ⟨1000000, 0, []⟩)
        = checkAndSendNotifications 20 1 ⟨JsValue.num 25, JsValue.undef, JsValue.undef⟩ 1300001
          ⟨true, true⟩ ⟨1000000, 0, []⟩) ∧
    checkAndSendNotifications 20 1 ⟨JsValue.num 25, JsValue.undef, JsValue.undef⟩ 1300000
      ⟨true, true⟩ ⟨1000000, 0, []⟩ = ⟨1000000, 0, []⟩ := by
  have ha := C3_cooldown_strict_and_idempotent 20 1 ⟨JsValue.num 25, JsValue.undef, JsValue.undef⟩
    1300001 ⟨true, true⟩ ⟨1000000, 0, []⟩ (by decide) rfl
  have hb := C3_cooldown_strict_and_idempotent 20 1 ⟨JsValue.num 25, JsValue.undef, JsValue.undef⟩
    1300000 ⟨true, true⟩ ⟨1000000, 0, []⟩ (by decide) rfl
  exact ⟨ha.1 (by decide), hb.2 (by decide)⟩

/-- C2 counterexample: the sample value 0 for the gas channel against
threshold -1 is present (non-null) and numerically parseable, and the
strict comparator holds (0 > -1), yet with the cooldown fully open and
dispatch succeeding the evaluation emits no alert and the cycle changes
nothing — refuting the claim that a candidate is emitted whenever a
present, parseable value satisfies the comparator.  The source's
truthiness guard `data.field1 && ...` drops the falsy number 0 first. -/
theorem C2_counterexample :
    (claimPresentValue (JsValue.num 0) = some 0 ∧ ((0 : ℚ) > -1)) ∧
    checkAndSendNotifications (-1) 1 ⟨JsValue.num 0, JsValue.undef, JsValue.undef⟩ 1000000
      ⟨true, true⟩ initialState = initialState := by
  decide

/-- C2 amended: with both cooldowns open and dispatch succeeding, the
evaluation emits exactly one alert for each channel whose value is truthy
(so additionally not the number 0 and not the empty string), numerically
parseable, and satisfies the channel's comparator — strictly-greater-than
for field1 (gas) and greater-or-equal for field2 (vibration) — and emits
none otherwise; the two channels are counted independently. -/
theorem C2_per_channel_emission (th1 th2 : ℚ) (data : SensorData) (now : ℤ) (s : NotifState)
    (h1 : now - s.lastField1Alert > ALERT_COOLDOWN)
    (h2 : now - s.lastField2Alert > ALERT_COOLDOWN) :
    (checkAndSendNotifications th1 th2 data now ⟨true, true⟩ s).notifications.length
      = s.notifications.length + cond (field1Cond th1 data.field1) 1 0
          + cond (field2Cond th2 data.field2) 1 0
    ∧ (field1Cond th1 data.field1 = true
        ↔ jsTruthy data.field1 = true ∧ ∃ x, jsParseFloat data.field1 = some x ∧ x > th1)
    ∧ (field2Cond th2 data.field2 = true
        ↔ jsTruthy data.field2 = true ∧ ∃ x, jsParseFloat data.field2 = some x ∧ x ≥ th2) := by
  refine ⟨?_, ?_, ?_⟩
  · cases hc1 : field1Cond th1 data.field1 <;> cases hc2 : field2Cond th2 data.field2 <;>
      simp [checkAndSendNotifications, hc1, hc2, h1, h2, scheduleLocalNotification]
  · cases hp : jsParseFloat data.field1 <;>
      simp [field1Cond, hp, Bool.and_eq_true, decide_eq_true_iff]
  · cases hp : jsParseFloat data.field2 <;>
      simp [field2Cond, hp, Bool.and_eq_true, decide_eq_true_iff]

/-- C2 amended witness: gas value 25 against threshold 20 emits one
alert; vibration value 0 against threshold 1 emits none; starting from an
empty history at an instant past both cooldowns, exactly one record is
produced. -/
theorem C2_per_channel_emission_witness :
    (checkAndSendNotifications 20 1 ⟨JsValue.num 25, JsValue.num 0, JsValue.undef⟩ 1000000
        ⟨true, true⟩ initialState).notifications.length
      = initialState.notifications.length + cond (field1Cond 20 (JsValue.num 25)) 1 0
          + cond (field2Cond 1 (JsValue.num 0)) 1 0
    ∧ (field1Cond 20 (JsValue.num 25) = true
        ↔ jsTruthy (JsValue.num 25) = true ∧ ∃ x, jsParseFloat (JsValue.num 25) = some x ∧ x > 20)
    ∧ (field2Cond 1 (JsValue.num 0) = true
        ↔ jsTruthy (JsValue.num 0) = true ∧ ∃ x, jsParseFloat (JsValue.num 0) = some x ∧ x ≥ 1) :=
  C2_per_channel_emission 20 1 ⟨JsValue.num 25, JsValue.num 0, JsValue.undef⟩ 1000000
    initialState (by decide) (by decide)

/-- C4 counterexample: a gas candidate is admitted (the last-fired instant
is recorded, so the emission was attempted) but the platform dispatch
fails; the history stays empty — refuting the claim that a
NotificationRecord is still added to the history when dispatch fails.  In
the source the history append sits after the awaited dispatch inside the
same try block, so a rejection skips it. -/
theorem C4_counterexample :
    (checkAndSendNotifications 20 1 ⟨JsValue.num 25, JsValue.undef, JsValue.undef⟩ 1000000
        ⟨false, true⟩ initialState).lastField1Alert = 1000000 ∧
    (checkAndSendNotifications 20 1 ⟨JsValue.num 25, JsValue.undef, JsValue.undef⟩ 1000000
        ⟨false, true⟩ initialState).notifications = [] := by
  decide

/-- C4 amended: a dispatch failure is logged and not propagated — the
cycle still completes normally — but the local history append happens only
when the platform dispatch succeeds: on success the new record is
prepended, on failure the history is exactly as before. -/
theorem C4_append_iff_dispatch_succeeds (th1 th2 : ℚ) (d : SensorData) (now : ℤ) (ok : Bool)
    (s : NotifState)
    (htrig : field1Cond th1 d.field1 = true) (h2 : d.field2 = JsValue.undef)
    (hcool : now - s.lastField1Alert > ALERT_COOLDOWN) :
    (checkAndSendNotifications th1 th2 d now ⟨ok, true⟩ s).notifications
      = cond ok
          ({ title := "Vehicle Health Alert! 🚨", body := gasAlertBody d.field1 th1,
             timestamp := now } :: s.notifications)
          s.notifications := by
  rw [check_field2_undef th1 th2 d now ⟨ok, true⟩ s h2, htrig, if_pos rfl, if_pos hcool]
  cases ok <;> rfl

/-- C4 amended witness: the same admitted gas candidate with failing
dispatch leaves the history empty, and with succeeding dispatch prepends
exactly the new record. -/
theorem C4_append_iff_dispatch_succeeds_witness :
    (checkAndSendNotifications 20 1 ⟨JsValue.num 25, JsValue.undef, JsValue.undef⟩ 1000000
        ⟨false, true⟩ initialState).notifications
      = cond false
          ({ title := "Vehicle Health Alert! 🚨", body := gasAlertBody (JsValue.num 25) 20,
             timestamp := 1000000 } :: initialState.notifications)
          initialState.notifications
    ∧ (checkAndSendNotifications 20 1 ⟨JsValue.num 25, JsValue.undef, JsValue.undef⟩ 1000000
        ⟨true, true⟩ initialState).notifications
      = cond true
          ({ title := "Vehicle Health Alert! 🚨", body := gasAlertBody (JsValue.num 25) 20,
             timestamp := 1000000 } :: initialState.notifications)
          initialState.notifications :=
  ⟨C4_append_iff_dispatch_succeeds 20 1 ⟨JsValue.num 25, JsValue.undef, JsValue.undef⟩ 1000000
      false initialState (by decide) rfl (by decide),
    C4_append_iff_dispatch_succeeds 20 1 ⟨JsValue.num 25, JsValue.undef, JsValue.undef⟩ 1000000
      true initialState (by decide) rfl (by decide)⟩

/-- C10: when a gas candidate is admitted, the channel's last-fired
instant is set to now in the state handed to the emitter, so even when the
platform dispatch then fails — producing no notification record — the
channel stays suppressed: any later cycle at now2 with now2 - now ≤
ALERT_COOLDOWN (whatever its sample and dispatch outcomes, with field2
absent) changes nothing. -/
theorem C10_failed_dispatch_still_cools (th1 th2 : ℚ) (d : SensorData) (now : ℤ)
    (s : NotifState)
    (htrig : field1Cond th1 d.field1 = true) (h2 : d.field2 = JsValue.undef)
    (hcool : now - s.lastField1Alert > ALERT_COOLDOWN) :
    (checkAndSendNotifications th1 th2 d now ⟨false, true⟩ s).lastField1Alert = now ∧
    (checkAndSendNotifications th1 th2 d now ⟨false, true⟩ s).notifications = s.notifications ∧
    ∀ (e : SensorData) (now2 : ℤ) (disp : DispatchOutcomes),
      e.field2 = JsValue.undef → now2 - now ≤ ALERT_COOLDOWN →
      checkAndSendNotifications th1 th2 e now2 disp
          (checkAndSendNotifications th1 th2 d now ⟨false, true⟩ s)
        = checkAndSendNotifications th1 th2 d now ⟨false, true⟩ s := by
  have e1 : checkAndSendNotifications th1 th2 d now ⟨false, true⟩ s
      = { s with lastField1Alert := now } := by
    rw [check_field2_undef th1 th2 d now ⟨false, true⟩ s h2, htrig, if_pos rfl, if_pos hcool]
    rfl
  refine ⟨by rw [e1], by rw [e1], ?_⟩
  intro e now2 disp he hle
  rw [e1, check_field2_undef th1 th2 e now2 disp { s with lastField1Alert := now } he]
  cases hc : field1Cond th1 e.field1
  · simp
  · rw [if_pos rfl, if_neg (show ¬now2 - now > ALERT_COOLDOWN by omega)]

/-- C10 witness: admission at 1000000 with failing dispatch records the
instant, produces no record, and a triggering sample 200000 ms later
(within the 300000 ms cooldown, dispatch succeeding) is suppressed. -/
theorem C10_witness :
    (checkAndSendNotifications 20 1 ⟨JsValue.num 25, JsValue.undef, JsValue.undef⟩ 1000000
        ⟨false, true⟩ initialState).lastField1Alert = 1000000 ∧
    (checkAndSendNotifications 20 1 ⟨JsValue.num 25, JsValue.undef, JsValue.undef⟩ 1000000
        ⟨false, true⟩ initialState).notifications = [] ∧
    checkAndSendNotifications 20 1 ⟨JsValue.num 30, JsValue.undef, JsValue.undef⟩ 1200000
        ⟨true, true⟩ (checkAndSendNotifications 20 1 ⟨JsValue.num 25, JsValue.undef, JsValue.undef⟩
          1000000 ⟨false, true⟩ initialState)
      = checkAndSendNotifications 20 1 ⟨JsValue.num 25, JsValue.undef, JsValue.undef⟩ 1000000
        ⟨false, true⟩ initialState := by
  have h := C10_failed_dispatch_still_cools 20 1 ⟨JsValue.num 25, JsValue.undef, JsValue.undef⟩
    1000000 initialState (by decide) rfl (by decide)
  exact ⟨h.1, h.2.1, h.2.2 ⟨JsValue.num 30, JsValue.undef, JsValue.undef⟩ 1200000
    ⟨true, true⟩ rfl (by decide)⟩

/-- C7 counterexample: from component mount (no alert ever admitted, the
last-fired ref holding its initial value 0) a gas candidate presented at
now = 300000 — a perfectly valid instant — is suppressed, refuting the
claim that the first candidate for a channel is admitted regardless of the
current time. -/
theorem C7_counterexample :
    field1Cond 20 (JsValue.num 25) = true ∧
    checkAndSendNotifications 20 1 ⟨JsValue.num 25, JsValue.undef, JsValue.undef⟩ 300000
      ⟨true, true⟩ initialState = initialState := by
  decide

/-- C7 amended: the last-fired refs are initialised to the sentinel 0
rather than to an absent marker, so from the initial state the first gas
candidate is admitted iff now > ALERT_COOLDOWN — which holds at every
realistic clock value (Date.now() in ms since the epoch) but not
regardless of now: at now ≤ ALERT_COOLDOWN the first candidate is
suppressed. -/
theorem C7_first_candidate (th1 th2 : ℚ) (d : SensorData) (now : ℤ)
    (htrig : field1Cond th1 d.field1 = true) (h2 : d.field2 = JsValue.undef) :
    (now > ALERT_COOLDOWN →
      (checkAndSendNotifications th1 th2 d now ⟨true, true⟩ initialState).notifications.length
        = 1) ∧
    (now ≤ ALERT_COOLDOWN →
      checkAndSendNotifications th1 th2 d now ⟨true, true⟩ initialState = initialState) := by
  have h0 : now - initialState.lastField1Alert = now := by
    show now - 0 = now
    omega
  rw [check_field2_undef th1 th2 d now ⟨true, true⟩ initialState h2, htrig, if_pos rfl, h0]
  constructor
  · intro hc
    rw [if_pos hc]
    rfl
  · intro hc
    rw [if_neg]
    omega

/-- C7 amended witness: at the first instant past the cooldown length
(300001 ms) the very first gas candidate is admitted and one notification
is recorded. -/
theorem C7_first_candidate_witness :
    (checkAndSendNotifications 20 1 ⟨JsValue.num 25, JsValue.undef, JsValue.undef⟩ 300001
        ⟨true, true⟩ initialState).notifications.length = 1 := by
  have h := C7_first_candidate 20 1 ⟨JsValue.num 25, JsValue.undef, JsValue.undef⟩ 300001
    (by decide) rfl
  exact h.1 (by decide)

/-- C5: a cycle whose fetch fails is caught at the cycle boundary and
swallowed — the single-cycle function returns the state unchanged for
every state — and the scheduler's remaining cycles run exactly as they
would have: running the cycle sequence around the failing cycle equals
running the cycles before it and then the cycles after it. -/
theorem C5_cycle_isolation (th1 th2 : ℚ) (pre post : List CycleInput) (c : CycleInput)
    (s : NotifState) (hfail : c.out = FetchOutcome.failure) :
    (∀ st : NotifState, fetchLatestSensorData th1 th2 c st = st) ∧
    runCycles th1 th2 (pre ++ c :: post) s = runCycles th1 th2 post (runCycles th1 th2 pre s) := by
  have hid : ∀ st : NotifState, fetchLatestSensorData th1 th2 c st = st := by
    intro st
    simp [fetchLatestSensorData, fetchBody, hfail]
  refine ⟨hid, ?_⟩
  show List.foldl _ s (pre ++ c :: post) = _
  rw [List.foldl_append, List.foldl_cons, hid]
  rfl

/-- C5 witness: a one-cycle schedule whose only cycle's fetch fails leaves
the mount state untouched, and is the same as running the empty schedules
around it. -/
theorem C5_witness :
    fetchLatestSensorData 20 1 ⟨FetchOutcome.failure, 0, ⟨true, true⟩⟩ initialState
      = initialState ∧
    runCycles 20 1 ([] ++ ⟨FetchOutcome.failure, 0, ⟨true, true⟩⟩ :: []) initialState
      = runCycles 20 1 [] (runCycles 20 1 [] initialState) := by
  have h := C5_cycle_isolation 20 1 [] [] ⟨FetchOutcome.failure, 0, ⟨true, true⟩⟩
    initialState rfl
  exact ⟨h.1 initialState, h.2⟩

/-- C1 counterexample: emitting 101 notifications from an empty history
leaves 101 entries, exceeding the claimed cap of 100 — the source prepends
to the history with no eviction, so after N > 100 emissions the history
does not contain exactly 100 entries and its length does exceed 100. -/
theorem C1_counterexample :
    (emitAll ((List.range 101).map (fun i => ("t", "b", (i : ℤ)))) initialState).notifications.length
      = 101 ∧
    100 < (emitAll ((List.range 101).map (fun i => ("t", "b", (i : ℤ))))
        initialState).notifications.length := by
  decide

/-- C1 amended: the notification history is unbounded — emitting any
sequence of notifications (each dispatch succeeding) prepends them in
order, so afterwards the history is exactly the emitted records,
most-recent first, followed by the prior history, and its length is the
number of emissions plus the prior length; nothing is ever evicted. -/
theorem C1_history_unbounded (entries : List (String × String × ℤ)) (s : NotifState) :
    (emitAll entries s).notifications = (entries.map entryRecord).reverse ++ s.notifications ∧
    (emitAll entries s).notifications.length = entries.length + s.notifications.length := by
  have h : ∀ (l : List (String × String × ℤ)) (st : NotifState),
      (emitAll l st).notifications = (l.map entryRecord).reverse ++ st.notifications := by
    intro l
    induction l with
    | nil => intro st; rfl
    | cons e rest ih =>
        intro st
        have step : emitAll (e :: rest) st
            = emitAll rest (scheduleLocalNotification true e.1 e.2.1 e.2.2 st) := rfl
        rw [step, ih]
        simp [scheduleLocalNotification, entryRecord]

  refine ⟨h entries s, ?_⟩
  rw [h entries s]
  simp

/-- C6 counterexample: with the default 10000 ms polling interval and a
fetch latency of 15000 ms, at instant 10000 two pipeline cycles are in
flight at once (the initial cycle, still fetching, and the first interval
tick's cycle) — refuting the claim that the scheduler never starts an
overlapping cycle and skips such a tick. -/
theorem C6_counterexample :
    activeCycles 10000 15000 10000 = 2 ∧ 1 < activeCycles 10000 15000 10000 := by
  decide

/-- C6 amended: the interval tick handler starts a cycle unconditionally
(there is no in-flight guard and no tick is ever skipped); consequently at
most one cycle is active at any instant exactly when every fetch completes
within the polling interval, while a fetch latency exceeding the interval
produces overlapping cycles (as the counterexample shows). -/
theorem C6_no_overlap_iff_fast_fetch (interval latency t : ℕ)
    (hlat : latency ≤ interval) :
    activeCycles interval latency t ≤ 1 := by
  unfold activeCycles
  refine Finset.card_le_one.mpr ?_
  intro a ha b hb
  rw [Finset.mem_filter] at ha hb
  obtain ⟨-, ha1, ha2⟩ := ha
  obtain ⟨-, hb1, hb2⟩ := hb
  have h1 : b < a + 1 := by
    have hm : b * interval < (a + 1) * interval := by
      calc b * interval ≤ t := hb1
        _ < a * interval + latency := ha2
        _ ≤ a * interval + interval := by omega
        _ = (a + 1) * interval := by ring
    exact lt_of_mul_lt_mul_right hm (Nat.zero_le interval)
  have h2 : a < b + 1 := by
    have hm : a * interval < (b + 1) * interval := by
      calc a * interval ≤ t := ha1
        _ < b * interval + latency := hb2
        _ ≤ b * interval + interval := by omega
        _ = (b + 1) * interval := by ring
    exact lt_of_mul_lt_mul_right hm (Nat.zero_le interval)
  omega

/-- C6 amended witness: with a 10000 ms interval and 5000 ms fetch
latency, at instant 12000 at most one cycle is active. -/
theorem C6_no_overlap_witness : activeCycles 10000 5000 12000 ≤ 1 :=
  C6_no_overlap_iff_fast_fetch 10000 5000 12000 (by decide)

/-- C8: evaluating the URL construction at a configuration the claim says
must be honoured — channel "999", no API key — the code still produces the
hardcoded URL for channel 2899206 with the hardcoded api_key query
appended, differing from the claimed URL; indeed the produced URL is the
same for every configuration.  This contradicts the component's own
interface, which declares and receives channelId and readApiKey props for
this purpose: the source interpolates string literals where the props
belong. -/
theorem C8_url_ignores_config :
    fetchUrl "999" ""
      = "https://api.thingspeak.com/channels/2899206/feeds/last.json?api_key=K5H4IGTGX5E20NMW" ∧
    claimFetchUrl "999" "" = "https://api.thingspeak.com/channels/999/feeds/last.json" ∧
    fetchUrl "999" "" ≠ claimFetchUrl "999" "" ∧
    ∀ cid key : String, fetchUrl cid key = fetchUrl "999" "" := by
  exact ⟨by decide, by decide, by decide, fun cid key => rfl⟩

end VehicleTracking
